import Mathlib

/-!
Verification development for the AI-news digest server (`src/app.py`).

The program fetches an RSS feed, extracts up to `MAX_ITEMS` news items,
builds a one-sentence summary from title-token frequencies, and serves
three fixed HTTP routes.  The side-effecting boundaries (the network read
`urlopen`, the stdlib RFC-2822 date parser `parsedate_to_datetime`, the
JSON write to the socket, and the wall clock) are modelled as explicit
parameters; everything after those boundaries is embedded directly from
the source.
-/

/-- `NewsItem` — the per-item record built by `fetch_ai_news`
(dict with keys title, url, source, published_at in `app.py`). -/
structure NewsItem where
  title : String
  url : String
  source : String
  published_at : String
deriving DecidableEq

/-- Model of an `xml.etree.ElementTree` element: a tag, optional text and a
list of child elements in document order. -/
inductive XmlNode where
  | elem (tag : String) (text : Option String) (children : List XmlNode)

/-- Tag of an element. -/
def XmlNode.tag : XmlNode → String
  | .elem t _ _ => t

/-- Text of an element (`None` when the element has no text). -/
def XmlNode.text : XmlNode → Option String
  | .elem _ tx _ => tx

/-- Direct children of an element, in document order. -/
def XmlNode.children : XmlNode → List XmlNode
  | .elem _ _ cs => cs

/-- `Element.find(tag)`: first direct child with the given tag, if any. -/
def XmlNode.find (n : XmlNode) (t : String) : Option XmlNode :=
  n.children.find? (fun c => c.tag == t)

/-- `Element.findall(tag)`: every direct child with the given tag, in
document order. -/
def XmlNode.findall (n : XmlNode) (t : String) : List XmlNode :=
  n.children.filter (fun c => c.tag == t)

/-- `Element.findtext(tag)` (no default): `none` when no such child exists,
otherwise the child's text, with a missing text read as `""`. -/
def XmlNode.findtext (n : XmlNode) (t : String) : Option String :=
  (n.find t).map (fun c => c.text.getD "")

/-- Python's `x or d` on an optional string: `None` and the empty string are
falsy and yield the default. -/
def orElseStr (o : Option String) (d : String) : String :=
  match o with
  | none => d
  | some s => if s = "" then d else s

/-- Python's `str.strip()`: remove leading and trailing whitespace. -/
def pyStrip (s : String) : String :=
  String.mk ((s.data.dropWhile Char.isWhitespace).reverse.dropWhile Char.isWhitespace).reverse

/-- `MAX_ITEMS` from `app.py`. -/
def MAX_ITEMS : Nat := 10

/-- The `pub_date_raw` local of `fetch_ai_news`:
`(item.findtext("pubDate") or "").strip()`. -/
def pubDateRaw (item : XmlNode) : String :=
  pyStrip (orElseStr (item.findtext "pubDate") "")

/-- The per-item body of the loop in `fetch_ai_news` (lines 58–77).
`parseDate` stands for the stdlib pipeline
`parsedate_to_datetime(raw).astimezone(utc).isoformat().replace("+00:00","Z")`,
returning `none` when that pipeline raises. -/
def parseNewsItem (parseDate : String → Option String) (item : XmlNode) : NewsItem :=
  { title := pyStrip (orElseStr (item.findtext "title") "")
    url := pyStrip (orElseStr (item.findtext "link") "")
    source := pyStrip (orElseStr (item.findtext "source") "Unknown source")
    published_at :=
      match parseDate (pubDateRaw item) with
      | some iso => iso
      | none => pubDateRaw item }

/-- The parsing phase of `fetch_ai_news` (lines 51–79), applied to the XML
document obtained from the network read: locate the `channel` child of the
root, return `[]` when it is absent, otherwise convert the first `limit`
`item` children. -/
def fetch_ai_news (parseDate : String → Option String) (root : XmlNode)
    (limit : Nat) : List NewsItem :=
  match root.find "channel" with
  | none => []
  | some channel => ((channel.findall "item").take limit).map (parseNewsItem parseDate)

/-- `STOP_WORDS` from `app.py`. -/
def STOP_WORDS : List String :=
  ["ai", "artificial", "intelligence", "the", "a", "an", "and", "to", "of",
   "in", "for", "on", "with", "is", "are", "at", "from", "by", "as", "new",
   "says"]

/-- ASCII letter, the class `[A-Za-z]` of the title-token regex. -/
def isAsciiLetter (c : Char) : Bool :=
  ('A' ≤ c && c ≤ 'Z') || ('a' ≤ c && c ≤ 'z')

/-- The continuation class of the regex: a letter, a hyphen or an
apostrophe. -/
def isTokenChar (c : Char) : Bool :=
  isAsciiLetter c || c = '-' || c = Char.ofNat 39

/-- Scanner for `re.findall(r"[A-Za-z][A-Za-z\-']+", s)`: a match starts at
a letter, greedily takes one or more following token characters, and the
scan resumes after it.  `fuel` only bounds the recursion; each step consumes
at least one character, so any `fuel ≥` the list length gives the full scan. -/
def findTokensAux : Nat → List Char → List String
  | 0, _ => []
  | _ + 1, [] => []
  | fuel + 1, c :: rest =>
    if isAsciiLetter c then
      let run := rest.takeWhile isTokenChar
      if run.isEmpty then findTokensAux fuel rest
      else String.mk (c :: run) :: findTokensAux fuel (rest.drop run.length)
    else findTokensAux fuel rest

/-- `re.findall(r"[A-Za-z][A-Za-z\-']+", s)` over the characters of `s`:
left-to-right non-overlapping greedy matches. -/
def findTokens (cs : List Char) : List String :=
  findTokensAux cs.length cs

/-- Number of occurrences of `w` in `ws` (a `Counter` entry). -/
def countOccs (ws : List String) (w : String) : Nat :=
  (ws.filter (fun x => x = w)).length

/-- Distinct-element scanner; `fuel` only bounds the recursion, and any
`fuel ≥` the list length gives the full result since `filter` never grows a
list. -/
def dedupAux : Nat → List String → List String
  | 0, _ => []
  | _ + 1, [] => []
  | fuel + 1, w :: ws => w :: dedupAux fuel (ws.filter (fun x => x ≠ w))

/-- The distinct elements of `ws` in first-occurrence order — the key order
of a `Counter` built from `ws`. -/
def dedup (ws : List String) : List String :=
  dedupAux ws.length ws

/-- Insert `w` into a list sorted by descending occurrence count in `ws`,
before the first element whose count does not exceed `w`'s: elements
inserted earlier stay ahead of later elements of equal count. -/
def insertByCount (ws : List String) (w : String) : List String → List String
  | [] => [w]
  | x :: xs =>
    if countOccs ws x ≤ countOccs ws w then w :: x :: xs
    else x :: insertByCount ws w xs

/-- Stable sort by descending occurrence count in `ws` (insertion from the
left preserves first-occurrence order among equal counts, as Python's
stable `sorted(..., reverse=True)` does). -/
def sortByCount (ws : List String) : List String → List String
  | [] => []
  | x :: xs => insertByCount ws x (sortByCount ws xs)

/-- `Counter(ws).most_common(n)` (words only): the distinct words of `ws`
by descending count, ties in first-occurrence order, truncated to `n`. -/
def most_common (ws : List String) (n : Nat) : List String :=
  (sortByCount ws (dedup ws)).take n

/-- The `words` local of `build_daily_summary`: tokens of the lowercased
space-joined titles (`str.lower` maps each character to lower case). -/
def summaryWords (news_items : List NewsItem) : List String :=
  findTokens ((String.intercalate " " (news_items.map (fun it => it.title))).data.map Char.toLower)

/-- The `frequent` local of `build_daily_summary` (line 88): the six most
common title tokens, stop words removed, first four kept. -/
def frequentTopics (news_items : List NewsItem) : List String :=
  ((most_common (summaryWords news_items) 6).filter
    (fun w => ¬ STOP_WORDS.contains w)).take 4

/-- `build_daily_summary` from `app.py` (lines 82–96). -/
def build_daily_summary (news_items : List NewsItem) : String :=
  if news_items.isEmpty then
    "За последние сутки заметных AI-новостей не найдено."
  else
    let frequent := frequentTopics news_items
    let topics :=
      if frequent.isEmpty then "модели, продукты и внедрение AI"
      else String.intercalate ", " frequent
    let count := news_items.length
    "За последние 24 часа в AI было много активности: собрано " ++
      toString count ++ " ключевых новостей. " ++
      "Чаще всего встречаются темы: " ++ topics ++ ". " ++
      "Откройте карточки ниже, чтобы быстро перейти к первоисточникам."

/-- `fallback_news` from `app.py` (lines 99–120); `now` stands for the
formatted current UTC instant. -/
def fallback_news (now : String) : List NewsItem :=
  [{ title := "Open-source AI models continue improving multimodal reasoning"
     url := "https://news.google.com/"
     source := "Fallback digest"
     published_at := now },
   { title := "Enterprise adoption of AI copilots expands across industries"
     url := "https://news.google.com/"
     source := "Fallback digest"
     published_at := now },
   { title := "Governments discuss new frameworks for safe AI deployment"
     url := "https://news.google.com/"
     source := "Fallback digest"
     published_at := now }]

/-- `urllib.parse`'s `_splitparams` on a path: drop the `;params` suffix of
the last path segment (the first `;` after the last `/`, or the first `;`
when there is no `/`). -/
def splitParams (cs : List Char) : List Char :=
  if cs.contains '/' then
    let revSeg := cs.reverse.takeWhile (fun c => c ≠ '/')
    (cs.reverse.drop revSeg.length).reverse ++ revSeg.reverse.takeWhile (fun c => c ≠ ';')
  else cs.takeWhile (fun c => c ≠ ';')

/-- `scheme_chars` from `urllib.parse`. -/
def schemeChars : List Char :=
  "abcdefghijklmnopqrstuvwxyzABCDEFGHIJKLMNOPQRSTUVWXYZ0123456789+-.".data

/-- `uses_params` from `urllib.parse`: the schemes (the empty scheme
included) whose paths may carry a `;params` suffix. -/
def uses_params : List String :=
  ["", "ftp", "hdl", "prospero", "http", "imap", "https", "shttp", "rtsp",
   "rtsps", "rtspu", "sip", "sips", "mms", "sftp", "tel"]

/-- The scheme-splitting step of `urlsplit`: when the first colon is
preceded by a nonempty run starting with an ASCII letter and made of scheme
characters only, split it off as the lowercased scheme; otherwise the
scheme is empty and the URL unchanged. -/
def splitScheme (cs : List Char) : String × List Char :=
  let pre := cs.takeWhile (fun c => c ≠ ':')
  let ok : Bool := decide (pre.length < cs.length) && !pre.isEmpty &&
    isAsciiLetter (pre.headD ' ') && pre.all (fun c => schemeChars.contains c)
  if ok then (String.mk (pre.map Char.toLower), cs.drop (pre.length + 1))
  else ("", cs)

/-- `_splitnetloc(url, 2)`: the network location runs from index 2 to the
first `/`, `?` or `#`; the returned remainder starts at that delimiter. -/
def splitNetloc (cs : List Char) : List Char × List Char :=
  let after := cs.drop 2
  let net := after.takeWhile (fun c => c ≠ '/' ∧ c ≠ '?' ∧ c ≠ '#')
  (net, after.drop net.length)

/-- `urlparse(target)` reduced to the two components routing can observe:
the network location and the path.  Follows CPython's `urlsplit` then
`urlparse`: lstrip the WHATWG C0-control-or-space characters, delete every
tab, CR and LF, split a syntactically valid scheme at the first colon,
split the netloc when the remainder starts with `//`, drop the fragment
(from the first `#`) and then the query (from the first `?`), and, when
the scheme is in `uses_params`, drop the `;params` suffix of the last path
segment. -/
def urlparsePieces (target : String) : List Char × String :=
  let cs0 := target.data.dropWhile (fun c => c.toNat ≤ 32)
  let cs1 := cs0.filter (fun c => c ≠ '\t' ∧ c ≠ '\r' ∧ c ≠ '\n')
  let p := splitScheme cs1
  let q := if p.2.take 2 = ['/', '/'] then splitNetloc p.2 else ([], p.2)
  let path0 := (q.2.takeWhile (fun c => c ≠ '#')).takeWhile (fun c => c ≠ '?')
  let path := if uses_params.contains p.1 then splitParams path0 else path0
  (q.1, String.mk path)

/-- `urlparse(target).path`. -/
def urlPath (target : String) : String :=
  (urlparsePieces target).2

/-- `urlparse(target).netloc`, as its characters. -/
def urlNetloc (target : String) : List Char :=
  (urlparsePieces target).1

/-- A sufficient condition for `urlparse` not to raise on `target`: a
netloc without brackets made of ASCII characters only.  `urlsplit` raises
`ValueError` only for a netloc with an unmatched bracket, a bracketed host
that is not a valid IPv6/IPvFuture address, or a non-ASCII netloc whose
NFKC normalization introduces a delimiter; none of these can occur under
this condition.  Every origin-form request target (a path starting with a
single `/`) has an empty netloc and satisfies it trivially. -/
def urlparseNoRaise (target : String) : Bool :=
  (urlNetloc target).all (fun c => c ≠ '[' ∧ c ≠ ']' ∧ c.toNat < 128)

/-- The JSON object sent by the `/api/news` branch of `Handler.do_GET`. -/
structure DigestResponse where
  generated_at : String
  summary : String
  items : List NewsItem
deriving DecidableEq

/-- Outcome of one `Handler.do_GET` call: a static file response, a JSON
response, or an error response from `send_error`. -/
inductive HandlerResult where
  | file (status : Nat) (path : List String) (contentType : String)
  | json (status : Nat) (contentType : String) (digest : DigestResponse)
  | err (status : Nat) (message : String)
deriving DecidableEq

/-- HTTP status of a handler outcome. -/
def HandlerResult.status : HandlerResult → Nat
  | .file s _ _ => s
  | .json s _ _ => s
  | .err s _ => s

/-- Summary text of the fallback branch of `Handler.do_GET` (line 162). -/
def fallbackSummary : String :=
  "Онлайн-источник новостей временно недоступен, показан резервный дайджест."

/-- The `/api/news` branch of `Handler.do_GET` (lines 147–165).  In Python
every step inside the `try` may raise, so the three effectful steps are
passed as `Except`-valued oracles: `fetch` is the `fetch_ai_news()` call
(network read included), `summarize` the `build_daily_summary(items)` call,
and `send` the `self._send_json(...)` serialization and socket write of the
success payload.  Any raised exception lands in the `except` branch, which
sends the fallback digest; `now1`/`now2` are the two `datetime.now` reads. -/
def apiNewsResult (fetch : Except Unit (List NewsItem))
    (summarize : List NewsItem → Except Unit String)
    (send : DigestResponse → Except Unit Unit)
    (now1 now2 : String) : HandlerResult :=
  match fetch with
  | .error _ =>
      .json 200 "application/json; charset=utf-8" ⟨now2, fallbackSummary, fallback_news now2⟩
  | .ok items =>
    match summarize items with
    | .error _ =>
        .json 200 "application/json; charset=utf-8" ⟨now2, fallbackSummary, fallback_news now2⟩
    | .ok summary =>
      match send ⟨now1, summary, items⟩ with
      | .error _ =>
          .json 200 "application/json; charset=utf-8" ⟨now2, fallbackSummary, fallback_news now2⟩
      | .ok _ => .json 200 "application/json; charset=utf-8" ⟨now1, summary, items⟩

/-- `Handler.do_GET` (lines 140–167): route on `urlparse(self.path).path`
only, serving the index page, the stylesheet, the news API, or a 404. -/
def do_GET (fetch : Except Unit (List NewsItem))
    (summarize : List NewsItem → Except Unit String)
    (send : DigestResponse → Except Unit Unit)
    (now1 now2 : String) (target : String) : HandlerResult :=
  let route := urlPath target
  if route = "/" then
    .file 200 ["templates", "index.html"] "text/html; charset=utf-8"
  else if route = "/static/styles.css" then
    .file 200 ["static", "styles.css"] "text/css; charset=utf-8"
  else if route = "/api/news" then
    apiNewsResult fetch summarize send now1 now2
  else
    .err 404 "Not found"

/-! ## Claims -/

/-- C1: every GET request to `/api/news` yields HTTP 200 whether the feed
fetch succeeds or fails; when the fetch fails the error is discarded and
the response carries the fallback digest — exactly 3 items, each with
source "Fallback digest" — and the fixed "temporarily unavailable" summary
message. -/
theorem c1_api_news_always_200_with_fallback
    (summarize : List NewsItem → Except Unit String)
    (send : DigestResponse → Except Unit Unit) (now1 now2 : String) :
    (∀ fetch, (do_GET fetch summarize send now1 now2 "/api/news").status = 200) ∧
    do_GET (Except.error ()) summarize send now1 now2 "/api/news" =
      HandlerResult.json 200 "application/json; charset=utf-8"
        ⟨now2, fallbackSummary, fallback_news now2⟩ ∧
    (fallback_news now2).length = 3 ∧
    (fallback_news now2).map (fun it => it.source) =
      ["Fallback digest", "Fallback digest", "Fallback digest"] := by
  refine ⟨?_, rfl, rfl, rfl⟩
  intro fetch
  show (apiNewsResult fetch summarize send now1 now2).status = 200
  unfold apiNewsResult
  cases fetch with
  | error e => rfl
  | ok items =>
    cases hsum : summarize items with
    | error e => simp [hsum, HandlerResult.status]
    | ok s =>
      cases hsend : send ⟨now1, s, items⟩ with
      | error e => simp [hsum, hsend, HandlerResult.status]
      | ok u => simp [hsum, hsend, HandlerResult.status]

/-- The two titles of the C3 test vector, as fetched items. -/
def c3Items : List NewsItem :=
  [{ title := "AI model beats benchmark", url := "", source := "", published_at := "" },
   { title := "New AI model released", url := "", source := "", published_at := "" }]

/-- C3: on the titles "AI model beats benchmark" and "New AI model
released", the topic list excludes the stop words "ai" and "new" and
contains "model", which occurs twice, is among the 6 most frequent tokens
and is not a stop word. -/
theorem c3_topics_exclude_stop_words_keep_model :
    "ai" ∉ frequentTopics c3Items ∧
    "new" ∉ frequentTopics c3Items ∧
    "model" ∈ frequentTopics c3Items ∧
    countOccs (summaryWords c3Items) "model" = 2 ∧
    "model" ∈ most_common (summaryWords c3Items) 6 ∧
    STOP_WORDS.contains "model" = false := by
  decide

/-- C5: an item whose `source` child is missing, or present with empty
text, gets source "Unknown source". -/
theorem c5_missing_or_empty_source_defaults
    (parseDate : String → Option String) (item : XmlNode)
    (h : item.findtext "source" = none ∨ item.findtext "source" = some "") :
    (parseNewsItem parseDate item).source = "Unknown source" := by
  rcases h with h | h <;> simp only [parseNewsItem, orElseStr, h] <;> decide

/-- Witness for C5: a concrete item with no `source` child. -/
theorem c5_missing_or_empty_source_defaults_witness :
    (XmlNode.elem "item" none []).findtext "source" = none ∧
    (parseNewsItem (fun _ => none) (XmlNode.elem "item" none [])).source =
      "Unknown source" :=
  ⟨rfl, c5_missing_or_empty_source_defaults (fun _ => none) _ (Or.inl rfl)⟩

/-- C6: when the parsed document's root has no `channel` child, the fetch
returns the empty item list rather than failing. -/
theorem c6_no_channel_returns_empty
    (parseDate : String → Option String) (root : XmlNode) (limit : Nat)
    (h : root.find "channel" = none) :
    fetch_ai_news parseDate root limit = [] := by
  simp [fetch_ai_news, h]

/-- Witness for C6: a concrete childless root element. -/
theorem c6_no_channel_returns_empty_witness :
    (XmlNode.elem "rss" none []).find "channel" = none ∧
    fetch_ai_news (fun _ => none) (XmlNode.elem "rss" none []) 10 = [] :=
  ⟨rfl, c6_no_channel_returns_empty (fun _ => none) _ 10 rfl⟩

/-- C2: with the default limit `MAX_ITEMS = 10`, the fetch returns
`min K 10` items when the channel holds `K` item elements, and the entry at
each index `i < 10` is the conversion of the `i`-th item element — so for
`K ≤ 10` exactly `K` records in document order, and for `K > 10` the first
ten. -/
theorem c2_fetch_returns_items_in_document_order
    (parseDate : String → Option String) (root channel : XmlNode)
    (h : root.find "channel" = some channel) :
    (fetch_ai_news parseDate root MAX_ITEMS).length
      = min (channel.findall "item").length MAX_ITEMS ∧
    ∀ i item, i < MAX_ITEMS → (channel.findall "item").get? i = some item →
      (fetch_ai_news parseDate root MAX_ITEMS).get? i
        = some (parseNewsItem parseDate item) := by
  constructor
  · simp [fetch_ai_news, h, Nat.min_comm]
  · intro i item hi hitem
    rw [List.get?_eq_getElem?] at hitem ⊢
    simp [fetch_ai_news, h, List.getElem?_take_of_lt hi, List.getElem?_map, hitem]

/-- First item element of the C2 witness document. -/
def c2Item0 : XmlNode :=
  .elem "item" none [.elem "title" (some "First headline") []]

/-- Channel element of the C2 witness document, holding two items. -/
def c2Channel : XmlNode :=
  .elem "channel" none
    [c2Item0, .elem "item" none [.elem "title" (some "Second headline") []]]

/-- Root of the C2 witness document. -/
def c2Root : XmlNode := .elem "rss" none [c2Channel]

/-- Witness for C2: a concrete two-item document. -/
theorem c2_fetch_returns_items_in_document_order_witness :
    c2Root.find "channel" = some c2Channel ∧
    (fetch_ai_news (fun _ => none) c2Root MAX_ITEMS).length
      = min (c2Channel.findall "item").length MAX_ITEMS ∧
    (0 : Nat) < MAX_ITEMS ∧
    (c2Channel.findall "item").get? 0 = some c2Item0 ∧
    (fetch_ai_news (fun _ => none) c2Root MAX_ITEMS).get? 0
      = some (parseNewsItem (fun _ => none) c2Item0) :=
  ⟨rfl,
   (c2_fetch_returns_items_in_document_order (fun _ => none) c2Root c2Channel rfl).1,
   by decide, rfl,
   (c2_fetch_returns_items_in_document_order (fun _ => none) c2Root c2Channel rfl).2
     0 c2Item0 (by decide) rfl⟩

/-- C4: an item whose stripped `pubDate` string the date parser rejects
keeps that exact string as `published_at`, and the fetch still delivers the
item at its position instead of aborting. -/
theorem c4_unparseable_date_kept_verbatim
    (parseDate : String → Option String) (root channel item : XmlNode)
    (i limit : Nat)
    (hc : root.find "channel" = some channel)
    (hi : (channel.findall "item").get? i = some item)
    (hlt : i < limit)
    (hfail : parseDate (pubDateRaw item) = none) :
    (fetch_ai_news parseDate root limit).get? i
      = some (parseNewsItem parseDate item) ∧
    (parseNewsItem parseDate item).published_at = pubDateRaw item := by
  constructor
  · rw [List.get?_eq_getElem?] at hi
    rw [List.get?_eq_getElem?]
    simp [fetch_ai_news, hc, List.getElem?_take_of_lt hlt, List.getElem?_map, hi]
  · simp [parseNewsItem, hfail]

/-- Item element of the C4 witness document, with a garbage `pubDate`. -/
def c4Item : XmlNode :=
  .elem "item" none [.elem "pubDate" (some "not a real date") []]

/-- Channel element of the C4 witness document. -/
def c4Channel : XmlNode := .elem "channel" none [c4Item]

/-- Root of the C4 witness document. -/
def c4Root : XmlNode := .elem "rss" none [c4Channel]

/-- Witness for C4: a concrete item whose `pubDate` fails to parse. -/
theorem c4_unparseable_date_kept_verbatim_witness :
    c4Root.find "channel" = some c4Channel ∧
    (c4Channel.findall "item").get? 0 = some c4Item ∧
    (0 : Nat) < 10 ∧
    (fun _ : String => (none : Option String)) (pubDateRaw c4Item) = none ∧
    (fetch_ai_news (fun _ => none) c4Root 10).get? 0
      = some (parseNewsItem (fun _ => none) c4Item) ∧
    (parseNewsItem (fun _ => none) c4Item).published_at = pubDateRaw c4Item :=
  ⟨rfl, rfl, by decide, rfl,
   (c4_unparseable_date_kept_verbatim (fun _ => none) c4Root c4Channel c4Item 0 10
      rfl rfl (by decide) rfl).1,
   (c4_unparseable_date_kept_verbatim (fun _ => none) c4Root c4Channel c4Item 0 10
      rfl rfl (by decide) rfl).2⟩

/-- Stripping a string of only-whitespace characters leaves the empty
string. -/
theorem pyStrip_eq_empty_of_whitespace (s : String)
    (h : ∀ c ∈ s.data, c.isWhitespace = true) : pyStrip s = "" := by
  have h1 : s.data.dropWhile Char.isWhitespace = [] := by
    rw [List.dropWhile_eq_nil_iff]
    exact h
  simp [pyStrip, h1]

/-- C10: an item whose `source` child is present with nonempty, all
whitespace text gets the empty string as source, not "Unknown source": the
default applies before stripping, only to a missing element or empty
text. -/
theorem c10_whitespace_source_strips_to_empty
    (parseDate : String → Option String) (item : XmlNode) (s : String)
    (h1 : item.findtext "source" = some s)
    (h2 : s ≠ "")
    (h3 : ∀ c ∈ s.data, c.isWhitespace = true) :
    (parseNewsItem parseDate item).source = "" ∧
    (parseNewsItem parseDate item).source ≠ "Unknown source" := by
  have hs : (parseNewsItem parseDate item).source = "" := by
    simp only [parseNewsItem, h1, orElseStr]
    rw [if_neg h2]
    exact pyStrip_eq_empty_of_whitespace s h3
  exact ⟨hs, by rw [hs]; decide⟩

/-- Item element of the C10 witness, with a blank `source`. -/
def c10Item : XmlNode :=
  .elem "item" none [.elem "source" (some " ") []]

/-- Witness for C10: a concrete item whose `source` text is one space. -/
theorem c10_whitespace_source_strips_to_empty_witness :
    c10Item.findtext "source" = some " " ∧
    (parseNewsItem (fun _ => none) c10Item).source = "" ∧
    (parseNewsItem (fun _ => none) c10Item).source ≠ "Unknown source" :=
  ⟨rfl,
   (c10_whitespace_source_strips_to_empty (fun _ => none) c10Item " "
      rfl (by decide) (by decide)).1,
   (c10_whitespace_source_strips_to_empty (fun _ => none) c10Item " "
      rfl (by decide) (by decide)).2⟩

/-- C8: `build_daily_summary` is a total function from item lists to
summary strings — embedded as such, it performs no I/O and cannot raise —
its result is never empty, and on the empty list it is exactly the fixed
"no notable items found" sentence. -/
theorem c8_summary_total_and_empty_case :
    (∀ items, 0 < (build_daily_summary items).length) ∧
    build_daily_summary [] = "За последние сутки заметных AI-новостей не найдено." := by
  constructor
  · intro items
    unfold build_daily_summary
    split
    · decide
    · simp only [String.length_append]
      have h1 : 0 < "За последние 24 часа в AI было много активности: собрано ".length := by
        decide
      omega
  · rfl

/-- C7: for every request target on which `urlparse` does not raise,
routing depends only on the path component — two targets with the same
parsed path get the same response, the query string in particular being
ignored — and any parsed path other than "/", "/static/styles.css" and
"/api/news" gets an HTTP 404 response.  (On a target where `urlparse`
raises, line 141 propagates the exception and no response is routed at
all, so such targets are outside the claim's "path component" reading.) -/
theorem c7_routing_by_path_only_else_404
    (fetch : Except Unit (List NewsItem))
    (summarize : List NewsItem → Except Unit String)
    (send : DigestResponse → Except Unit Unit) (now1 now2 : String) :
    (∀ t1 t2, urlparseNoRaise t1 = true → urlparseNoRaise t2 = true →
      urlPath t1 = urlPath t2 →
      do_GET fetch summarize send now1 now2 t1
        = do_GET fetch summarize send now1 now2 t2) ∧
    (∀ t, urlparseNoRaise t = true →
      urlPath t ≠ "/" → urlPath t ≠ "/static/styles.css" →
      urlPath t ≠ "/api/news" →
      (do_GET fetch summarize send now1 now2 t).status = 404) := by
  constructor
  · intro t1 t2 _ _ h
    simp only [do_GET]
    rw [h]
  · intro t _ h1 h2 h3
    simp only [do_GET]
    rw [if_neg h1, if_neg h2, if_neg h3]
    rfl

/-- Witness for C7: the query string of `/api/news` requests is ignored, a
`//x/` target routes like `/` (its netloc is split off), and
`/nonexistent` gets a 404. -/
theorem c7_routing_by_path_only_else_404_witness :
    urlparseNoRaise "/api/news?a=1" = true ∧
    urlparseNoRaise "/api/news?b=2" = true ∧
    urlPath "/api/news?a=1" = urlPath "/api/news?b=2" ∧
    do_GET (Except.error ()) (fun _ => Except.error ()) (fun _ => Except.ok ())
        "n1" "n2" "/api/news?a=1"
      = do_GET (Except.error ()) (fun _ => Except.error ()) (fun _ => Except.ok ())
        "n1" "n2" "/api/news?b=2" ∧
    urlparseNoRaise "//x/" = true ∧
    urlPath "//x/" = "/" ∧
    do_GET (Except.error ()) (fun _ => Except.error ()) (fun _ => Except.ok ())
        "n1" "n2" "//x/"
      = do_GET (Except.error ()) (fun _ => Except.error ()) (fun _ => Except.ok ())
        "n1" "n2" "/" ∧
    urlparseNoRaise "/nonexistent" = true ∧
    urlPath "/nonexistent" ≠ "/" ∧
    (do_GET (Except.error ()) (fun _ => Except.error ()) (fun _ => Except.ok ())
        "n1" "n2" "/nonexistent").status = 404 :=
  ⟨by decide, by decide, by decide,
   (c7_routing_by_path_only_else_404 (Except.error ()) (fun _ => Except.error ())
      (fun _ => Except.ok ()) "n1" "n2").1 "/api/news?a=1" "/api/news?b=2"
     (by decide) (by decide) (by decide),
   by decide, by decide,
   (c7_routing_by_path_only_else_404 (Except.error ()) (fun _ => Except.error ())
      (fun _ => Except.ok ()) "n1" "n2").1 "//x/" "/"
     (by decide) (by decide) (by decide),
   by decide, by decide,
   (c7_routing_by_path_only_else_404 (Except.error ()) (fun _ => Except.error ())
      (fun _ => Except.ok ()) "n1" "n2").2 "/nonexistent"
     (by decide) (by decide) (by decide) (by decide)⟩

/-- C9: the `try` of the `/api/news` branch spans the whole success path,
not just the fetch: an exception raised by the summary step, or by the
serialization and write of the success payload after a successful fetch and
summary, still produces the 200 fallback response. -/
theorem c9_catch_covers_summary_and_serialization
    (summarize : List NewsItem → Except Unit String)
    (send : DigestResponse → Except Unit Unit)
    (now1 now2 : String) (items : List NewsItem) :
    (summarize items = Except.error () →
      do_GET (Except.ok items) summarize send now1 now2 "/api/news" =
        HandlerResult.json 200 "application/json; charset=utf-8"
          ⟨now2, fallbackSummary, fallback_news now2⟩) ∧
    (∀ s, summarize items = Except.ok s →
      send ⟨now1, s, items⟩ = Except.error () →
      do_GET (Except.ok items) summarize send now1 now2 "/api/news" =
        HandlerResult.json 200 "application/json; charset=utf-8"
          ⟨now2, fallbackSummary, fallback_news now2⟩) := by
  constructor
  · intro hsum
    show apiNewsResult (Except.ok items) summarize send now1 now2 = _
    simp [apiNewsResult, hsum]
  · intro s hsum hsend
    show apiNewsResult (Except.ok items) summarize send now1 now2 = _
    simp [apiNewsResult, hsum, hsend]

/-- Witness for C9: a failing summary step and a failing send step, both
after a successful fetch. -/
theorem c9_catch_covers_summary_and_serialization_witness :
    do_GET (Except.ok []) (fun _ => Except.error ()) (fun _ => Except.ok ())
        "n1" "n2" "/api/news" =
      HandlerResult.json 200 "application/json; charset=utf-8"
        ⟨"n2", fallbackSummary, fallback_news "n2"⟩ ∧
    do_GET (Except.ok []) (fun _ => Except.ok "s") (fun _ => Except.error ())
        "n1" "n2" "/api/news" =
      HandlerResult.json 200 "application/json; charset=utf-8"
        ⟨"n2", fallbackSummary, fallback_news "n2"⟩ :=
  ⟨(c9_catch_covers_summary_and_serialization (fun _ => Except.error ())
      (fun _ => Except.ok ()) "n1" "n2" []).1 rfl,
   (c9_catch_covers_summary_and_serialization (fun _ => Except.ok "s")
      (fun _ => Except.error ()) "n1" "n2" []).2 "s" rfl rfl⟩
